import Mathlib

/-!
Verification of the CPU-identification core of cpufetch-rs.

The definitions below are a shallow embedding of the Rust sources:
  * src/cpu/cpuid.rs   (CpuidWrapper: get_basic_info, get_cache_topology)
  * src/cpu/info.rs    (Vendor, Version, Frequency, CpuInfo)
  * src/cpu/flags.rs   (X86Features / ArmFeatures detection)
  * src/arch/x86_64.rs (detect_cpu for x86_64)
  * src/arch/aarch64.rs (detect_cpu for ARM64)

Raw CPUID answers (what the raw-cpuid crate would return) are modelled as an
explicit record of optional leaf results, so that each function is a pure function
of those answers.  Machine integers are modelled as Nat with explicit % 2^w
truncation where the Rust code performs a narrowing cast.
-/

namespace Cpufetch

/-- Cache type, from `CacheType` in src/cpu/cpuid.rs. -/
inductive CacheType
  | Data
  | Instruction
  | Unified
  | Unknown
deriving DecidableEq, Repr

/-- Raw cache type as reported by the raw-cpuid crate (leaf 4 / 0x8000001D). -/
inductive RawCacheType
  | Null
  | Data
  | Instruction
  | Unified
  | Reserved
deriving DecidableEq, Repr

/-- Mapping of raw cache types, from the `match cache.cache_type()` in
src/cpu/cpuid.rs lines 227-232 (wildcard arm maps to Unknown). -/
def mapCacheType : RawCacheType → CacheType
  | RawCacheType.Data => CacheType.Data
  | RawCacheType.Instruction => CacheType.Instruction
  | RawCacheType.Unified => CacheType.Unified
  | _ => CacheType.Unknown

/-- `CacheInfo` from src/cpu/cpuid.rs (numeric fields modelled as Nat). -/
structure CacheInfo where
  level : Nat
  cache_type : CacheType
  size_kb : Nat
  line_size : Nat
  associativity : Nat
  sets : Nat
  shared_by : Nat
deriving DecidableEq, Repr

/-- Fixed 4-slot array (the `[Option<CacheInfo>; 4]` / `[Option<u32>; 4]`
arrays in the source). -/
structure Quad (α : Type) where
  q0 : α
  q1 : α
  q2 : α
  q3 : α
deriving DecidableEq, Repr

/-- Read slot `i` of a quad of optional values; out-of-range reads give none. -/
def Quad.get {α : Type} (t : Quad (Option α)) : Nat → Option α
  | 0 => t.q0
  | 1 => t.q1
  | 2 => t.q2
  | 3 => t.q3
  | _ => none

/-- Write slot `i` of a quad; out-of-range writes are dropped (the source
always guards writes by the array bound). -/
def Quad.set {α : Type} (t : Quad α) (i : Nat) (v : α) : Quad α :=
  match i with
  | 0 => { t with q0 := v }
  | 1 => { t with q1 := v }
  | 2 => { t with q2 := v }
  | 3 => { t with q3 := v }
  | _ => t

/-- The four slots as a list, in index order. -/
def Quad.toList {α : Type} (t : Quad α) : List α :=
  [t.q0, t.q1, t.q2, t.q3]

/-- `CacheTopology` from src/cpu/cpuid.rs: slot 0 = L1 Instruction,
1 = L1 Data, 2 = L2, 3 = L3. -/
abbrev CacheTopology := Quad (Option CacheInfo)

/-- `CacheTopology::default()`: all four slots empty. -/
def emptyTopology : CacheTopology := ⟨none, none, none, none⟩

/-- True iff at least one slot of the topology is populated. -/
def anyPopulated (t : CacheTopology) : Bool :=
  t.q0.isSome || t.q1.isSome || t.q2.isSome || t.q3.isSome

/-- One deterministic cache descriptor as reported by the backend
(`CacheParameter` of the raw-cpuid crate). -/
structure RawCacheParam where
  level : Nat
  ctype : RawCacheType
  associativity : Nat
  physical_line_partitions : Nat
  coherency_line_size : Nat
  sets : Nat
  max_cores_sharing : Nat
deriving DecidableEq, Repr

/-- Cache size computation from src/cpu/cpuid.rs lines 235-239:
`associativity * physical_line_partitions * coherency_line_size * sets / 1024`. -/
def sizeKb (assoc parts line sets : Nat) : Nat :=
  assoc * parts * line * sets / 1024

/-- The CacheInfo entry recorded for a deterministic descriptor
(src/cpu/cpuid.rs lines 258-266). -/
def detEntry (d : RawCacheParam) : CacheInfo :=
  { level := d.level
    cache_type := mapCacheType d.ctype
    size_kb := sizeKb d.associativity d.physical_line_partitions d.coherency_line_size d.sets
    line_size := d.coherency_line_size
    associativity := d.associativity
    sets := d.sets
    shared_by := d.max_cores_sharing }

/-- Target slot for a deterministic descriptor, from the
`match (cache.level(), cache_type)` in src/cpu/cpuid.rs lines 242-256;
`idx` is the running descriptor index used by the wildcard arm. -/
def detTarget (d : RawCacheParam) (idx : Nat) : Nat :=
  match d.level, mapCacheType d.ctype with
  | 1, CacheType.Instruction => 0
  | 1, CacheType.Data => 1
  | 2, _ => 2
  | 3, _ => 3
  | _, _ => idx

/-- The deterministic-enumeration loop of get_cache_topology
(src/cpu/cpuid.rs lines 216-275): `idx` is the descriptor counter, `found`
the `cache_found` flag; the loop breaks once `idx` reaches 4. -/
def detLoop : List RawCacheParam → CacheTopology → Nat → Bool → CacheTopology × Bool
  | [], t, _, found => (t, found)
  | d :: rest, t, idx, found =>
    if 4 ≤ idx then (t, found)
    else detLoop rest (t.set (detTarget d idx) (some (detEntry d))) (idx + 1) true

/-- L1 cache data of the AMD extended leaf (raw-cpuid `L1CacheInfo`). -/
structure L1Raw where
  dcache_size_kb : Nat
  dcache_line_size : Nat
  dcache_associativity : Nat
  icache_size_kb : Nat
  icache_line_size : Nat
  icache_associativity : Nat
deriving DecidableEq, Repr

/-- L2/L3 cache data of the AMD extended leaf (raw-cpuid `L2And3CacheInfo`). -/
structure LxRaw where
  size_kb : Nat
  line_size : Nat
  associativity : Nat
deriving DecidableEq, Repr

/-- The AMD extended-information leaf (raw-cpuid `ExtendedProcessorFeatureIdentifiers`
cache accessors used by the source). -/
structure ExtInfoRaw where
  l1 : Option L1Raw
  l2 : Option LxRaw
  l3 : Option LxRaw
deriving DecidableEq, Repr

/-- L1 data-cache entry recorded by the AMD fallback (src/cpu/cpuid.rs
lines 283-291): sets are not provided (0), L1 is per-core (shared_by 1). -/
def amdL1dEntry (l1 : L1Raw) : CacheInfo :=
  ⟨1, CacheType.Data, l1.dcache_size_kb, l1.dcache_line_size, l1.dcache_associativity, 0, 1⟩

/-- L1 instruction-cache entry recorded by the AMD fallback
(src/cpu/cpuid.rs lines 297-305). -/
def amdL1iEntry (l1 : L1Raw) : CacheInfo :=
  ⟨1, CacheType.Instruction, l1.icache_size_kb, l1.icache_line_size, l1.icache_associativity, 0, 1⟩

/-- L2 entry recorded by the AMD fallback (src/cpu/cpuid.rs lines 313-321). -/
def amdL2Entry (l2 : LxRaw) : CacheInfo :=
  ⟨2, CacheType.Unified, l2.size_kb, l2.line_size, l2.associativity, 0, 1⟩

/-- L3 entry recorded by the AMD fallback (src/cpu/cpuid.rs lines 329-337):
shared-core count unspecified (0). -/
def amdL3Entry (l3 : LxRaw) : CacheInfo :=
  ⟨3, CacheType.Unified, l3.size_kb, l3.line_size, l3.associativity, 0, 0⟩

/-- Vendor-extended (AMD) fallback of get_cache_topology
(src/cpu/cpuid.rs lines 278-345), threading the topology and the
`cache_found` flag exactly as the source does. -/
def amdFallback (e : ExtInfoRaw) (t : CacheTopology) : CacheTopology × Bool :=
  let s : CacheTopology × Bool := (t, false)
  let s :=
    match e.l1 with
    | some l1 =>
      let s :=
        if 0 < l1.dcache_size_kb then (s.1.set 1 (some (amdL1dEntry l1)), true) else s
      if 0 < l1.icache_size_kb then (s.1.set 0 (some (amdL1iEntry l1)), true) else s
    | none => s
  let s :=
    match e.l2 with
    | some l2 =>
      if 0 < l2.size_kb then (s.1.set 2 (some (amdL2Entry l2)), true) else s
    | none => s
  match e.l3 with
  | some l3 =>
    if 0 < l3.size_kb then (s.1.set 3 (some (amdL3Entry l3)), true) else s
  | none => s

/-- `CpuidError` from src/cpu/cpuid.rs. -/
inductive CpuidError
  | UnsupportedLeaf (n : Nat)
  | UnsupportedSubleaf (n m : Nat)
  | CacheInfoNotAvailable (n : Nat)
  | AccessError (s : String)
  | UnexpectedResult
  | UnsupportedArchitecture
deriving DecidableEq, Repr

/-- Display messages of `CpuidError`, from the thiserror attributes in
src/cpu/cpuid.rs lines 20-34. -/
def CpuidError.message : CpuidError → String
  | CpuidError.UnsupportedLeaf n => "CPUID leaf " ++ toString n ++ " not supported"
  | CpuidError.UnsupportedSubleaf n m =>
    "CPUID leaf " ++ toString n ++ ", subleaf " ++ toString m ++ " not supported"
  | CpuidError.CacheInfoNotAvailable n =>
    "Cache level " ++ toString n ++ " information not available"
  | CpuidError.AccessError s => "CPUID access failed: " ++ s
  | CpuidError.UnexpectedResult => "Unexpected CPUID result"
  | CpuidError.UnsupportedArchitecture => "Architecture not supported"

/-- `BasicInfo` from src/cpu/cpuid.rs (u8 fields as Nat, u64 fields as Nat). -/
structure BasicInfo where
  vendor_string : String
  brand_string : String
  family : Nat
  model : Nat
  stepping : Nat
  extended_family : Nat
  extended_model : Nat
  processor_type : Nat
  base_features : Nat
  extended_features : Nat
deriving DecidableEq, Repr

/-- Raw feature-info leaf 1 data (raw-cpuid `FeatureInfo` accessors used by
the source; register values are 32-bit). -/
structure FeatureInfoRaw where
  family_id : Nat
  model_id : Nat
  stepping_id : Nat
  extended_family_id : Nat
  extended_model_id : Nat
  processor_type : Nat
  ecx : Nat
  edx : Nat
deriving DecidableEq, Repr

/-- Raw extended-feature leaf 7 data (raw-cpuid `ExtendedFeatures`). -/
structure ExtFeatRaw where
  ebx : Nat
  ecx : Nat
deriving DecidableEq, Repr

/-- Raw answers of the CPUID backend: each field is the result of the
corresponding raw-cpuid query issued by src/cpu/cpuid.rs.
`legacy_cache_info` records whether `get_cache_info()` (leaf 2 legacy
descriptors) returned Some; src/cpu/cpuid.rs lines 348-353 never inspect
its contents. -/
structure RawCpuid where
  vendor_info : Option String
  brand : Option String
  feature_info : Option FeatureInfoRaw
  extended_feature_info : Option ExtFeatRaw
  cache_parameters : Option (List RawCacheParam)
  extended_info : Option ExtInfoRaw
  legacy_cache_info : Bool
deriving DecidableEq, Repr

/-- `CpuidWrapper::get_basic_info` (src/cpu/cpuid.rs lines 148-206), as a
function of the raw backend answers.  The 32-bit registers are truncated
with % 2^32 before being packed into the 64-bit feature words. -/
def get_basic_info (c : RawCpuid) : Except CpuidError BasicInfo :=
  match c.vendor_info with
  | none => Except.error (CpuidError.AccessError "Failed to get vendor information")
  | some vendor =>
    let brand_string :=
      match c.brand with
      | some b => b.trim
      | none => "Unknown"
    match c.feature_info with
    | none => Except.error (CpuidError.UnsupportedLeaf 1)
    | some fi =>
      let base_features := (fi.edx % 2 ^ 32) * 2 ^ 32 + fi.ecx % 2 ^ 32
      let extended_features :=
        match c.extended_feature_info with
        | some ef => (ef.ebx % 2 ^ 32) * 2 ^ 32 + ef.ecx % 2 ^ 32
        | none => 0
      Except.ok
        { vendor_string := vendor
          brand_string := brand_string
          family := fi.family_id
          model := fi.model_id
          stepping := fi.stepping_id
          extended_family := fi.extended_family_id
          extended_model := fi.extended_model_id
          processor_type := fi.processor_type
          base_features := base_features
          extended_features := extended_features }

/-- Hard-coded Intel L1 instruction default (src/cpu/cpuid.rs lines 361-369). -/
def intelL1iDefault : CacheInfo := ⟨1, CacheType.Instruction, 32, 64, 8, 0, 1⟩

/-- Hard-coded Intel L1 data default (src/cpu/cpuid.rs lines 371-379). -/
def intelL1dDefault : CacheInfo := ⟨1, CacheType.Data, 32, 64, 8, 0, 1⟩

/-- Hard-coded AMD L1 instruction default (src/cpu/cpuid.rs lines 385-393). -/
def amdL1iDefault : CacheInfo := ⟨1, CacheType.Instruction, 64, 64, 8, 0, 1⟩

/-- Hard-coded AMD L1 data default (src/cpu/cpuid.rs lines 395-403). -/
def amdL1dDefault : CacheInfo := ⟨1, CacheType.Data, 32, 64, 8, 0, 1⟩

/-- Hard-coded vendor defaults applied when no strategy found anything
(src/cpu/cpuid.rs lines 356-406): keyed on the vendor string obtained by
a fresh get_basic_info call; errors and unknown vendors leave the topology
unchanged. -/
def defaultsFallback (c : RawCpuid) (t : CacheTopology) : CacheTopology :=
  match get_basic_info c with
  | Except.ok info =>
    if info.vendor_string = "GenuineIntel" then
      (t.set 0 (some intelL1iDefault)).set 1 (some intelL1dDefault)
    else if info.vendor_string = "AuthenticAMD" then
      (t.set 0 (some amdL1iDefault)).set 1 (some amdL1dDefault)
    else t
  | Except.error _ => t

/-- `CpuidWrapper::get_cache_topology` (src/cpu/cpuid.rs lines 209-415,
x86/x86_64 build): deterministic enumeration, then AMD extended fallback,
then legacy descriptors (which only set the `cache_found` flag), then
hard-coded vendor defaults when nothing was found at all. -/
def get_cache_topology (c : RawCpuid) : Except CpuidError CacheTopology :=
  let t0 := emptyTopology
  let r1 :=
    match c.cache_parameters with
    | some ps => detLoop ps t0 0 false
    | none => (t0, false)
  if r1.2 then Except.ok r1.1
  else
    let r2 :=
      match c.extended_info with
      | some e => amdFallback e r1.1
      | none => (r1.1, false)
    if r2.2 then Except.ok r2.1
    else if c.legacy_cache_info then Except.ok r2.1
    else Except.ok (defaultsFallback c r2.1)

/-- Strategy 1 of the resolution chain viewed in isolation: the topology the
deterministic enumeration produces from an empty topology. -/
def strat1 (c : RawCpuid) : CacheTopology :=
  (match c.cache_parameters with
   | some ps => detLoop ps emptyTopology 0 false
   | none => (emptyTopology, false)).1

/-- Strategy 2 of the resolution chain viewed in isolation: the topology the
AMD extended fallback produces from an empty topology. -/
def strat2 (c : RawCpuid) : CacheTopology :=
  (match c.extended_info with
   | some e => amdFallback e emptyTopology
   | none => (emptyTopology, false)).1

/-- Strategy 3 of the resolution chain viewed in isolation (legacy
descriptors plus hard-coded defaults), from an empty topology: a present
legacy leaf counts as success without populating anything; otherwise the
vendor defaults apply. -/
def strat3 (c : RawCpuid) : CacheTopology :=
  if c.legacy_cache_info then emptyTopology else defaultsFallback c emptyTopology

/-- `Vendor` from src/cpu/info.rs lines 22-29: the enum as declared there
has exactly the constructors AMD, Intel, ARM, Unknown(String). -/
inductive Vendor
  | AMD
  | Intel
  | ARM
  | Unknown (s : String)
deriving DecidableEq, Repr

/-- Constructor skeleton of the source `Vendor` enum: one tag per declared
variant, payloads erased.  The totality of `Vendor.tag` below certifies that
these four tags exhaust the enum. -/
inductive VendorTag
  | AMD
  | Intel
  | ARM
  | Unknown
deriving DecidableEq, Fintype, Repr

/-- Tag of a `Vendor` value (total match over the source constructors). -/
def Vendor.tag : Vendor → VendorTag
  | Vendor.AMD => VendorTag.AMD
  | Vendor.Intel => VendorTag.Intel
  | Vendor.ARM => VendorTag.ARM
  | Vendor.Unknown _ => VendorTag.Unknown

/-- Modelled from the spec: the variant set the specification asserts for
Vendor, namely Intel, AMD, ARM, Apple, and Unknown(raw-string)
(spec section 3, "Vendor: closed enumeration").  Used only to compare the
spec's claimed enumeration against the source enum. -/
inductive VendorSpecTag
  | Intel
  | AMD
  | ARM
  | Apple
  | Unknown
deriving DecidableEq, Fintype, Repr

/-- `Version` from src/cpu/info.rs (u8 fields as Nat). -/
structure Version where
  family : Nat
  model : Nat
  stepping : Nat
deriving DecidableEq, Repr

/-- `Frequency` from src/cpu/info.rs (all fields optional MHz values). -/
structure Frequency where
  base : Option Nat
  max : Option Nat
  current : Option Nat
deriving DecidableEq, Repr

/-- Family folding from src/arch/x86_64.rs lines 28-32:
`((extended_family as u16) << 4) as u8 + family` applies only when the base
family equals 0xF.  The u16 shift never truncates for u8 input, the `as u8`
cast is % 256, and the final u8 addition is % 256. -/
def foldFamily (family extended_family : Nat) : Nat :=
  if family = 0xF then ((extended_family % 256) * 16 % 256 + family) % 256
  else family

/-- Model folding from src/arch/x86_64.rs lines 33-37: applies when the base
family is 0xF or 0x6. -/
def foldModel (family model extended_model : Nat) : Nat :=
  if family = 0xF ∨ family = 0x6 then ((extended_model % 256) * 16 % 256 + model) % 256
  else model

/-- Version construction of the x86 detect_cpu
(src/arch/x86_64.rs lines 27-39). -/
def foldVersion (b : BasicInfo) : Version :=
  ⟨foldFamily b.family b.extended_family, foldModel b.family b.model b.extended_model, b.stepping⟩

/-- `FeatureError` from src/cpu/flags.rs. -/
inductive FeatureError
  | UnsupportedArch
  | DetectionFailed (s : String)
deriving DecidableEq, Repr

/-- Display messages of `FeatureError` (thiserror attributes,
src/cpu/flags.rs lines 11-17). -/
def FeatureError.message : FeatureError → String
  | FeatureError.UnsupportedArch => "Feature detection not supported on this architecture"
  | FeatureError.DetectionFailed s => "Failed to detect feature " ++ s

/-- Outcomes of the 19 `is_x86_feature_detected!` probes queried by the x86
`detect_features` (src/cpu/flags.rs lines 67-132), in source order. -/
structure X86Probe where
  sse : Bool
  sse2 : Bool
  sse3 : Bool
  ssse3 : Bool
  sse4_1 : Bool
  sse4_2 : Bool
  avx : Bool
  avx2 : Bool
  fma : Bool
  bmi1 : Bool
  bmi2 : Bool
  f16c : Bool
  popcnt : Bool
  aes : Bool
  avx512f : Bool
  avx512bw : Bool
  avx512cd : Bool
  avx512dq : Bool
  avx512vl : Bool
deriving DecidableEq, Repr

/-- x86 `detect_features` (src/cpu/flags.rs lines 67-132): accumulates the
X86Features bit constants (bits 0-18) for each positive probe and always
returns Ok. -/
def detect_features_x86 (p : X86Probe) : Except FeatureError Nat :=
  let f : Nat := 0
  let f := if p.sse then f ||| 1 <<< 0 else f
  let f := if p.sse2 then f ||| 1 <<< 1 else f
  let f := if p.sse3 then f ||| 1 <<< 2 else f
  let f := if p.ssse3 then f ||| 1 <<< 3 else f
  let f := if p.sse4_1 then f ||| 1 <<< 4 else f
  let f := if p.sse4_2 then f ||| 1 <<< 5 else f
  let f := if p.avx then f ||| 1 <<< 6 else f
  let f := if p.avx2 then f ||| 1 <<< 7 else f
  let f := if p.fma then f ||| 1 <<< 8 else f
  let f := if p.bmi1 then f ||| 1 <<< 9 else f
  let f := if p.bmi2 then f ||| 1 <<< 10 else f
  let f := if p.f16c then f ||| 1 <<< 11 else f
  let f := if p.popcnt then f ||| 1 <<< 12 else f
  let f := if p.aes then f ||| 1 <<< 13 else f
  let f := if p.avx512f then f ||| 1 <<< 14 else f
  let f := if p.avx512bw then f ||| 1 <<< 15 else f
  let f := if p.avx512cd then f ||| 1 <<< 16 else f
  let f := if p.avx512dq then f ||| 1 <<< 17 else f
  let f := if p.avx512vl then f ||| 1 <<< 18 else f
  Except.ok f

/-- Outcomes of the 8 `is_aarch64_feature_detected!` probes queried on the
ARM64 paths (src/cpu/flags.rs lines 136-169 and src/arch/aarch64.rs
lines 32-65), in source order. -/
structure ArmProbe where
  neon : Bool
  aes : Bool
  pmull : Bool
  sha2 : Bool
  crc : Bool
  lse : Bool
  fp : Bool
  asimd : Bool
deriving DecidableEq, Repr

/-- ArmFeatures bit accumulation shared by both ARM64 detection functions:
NEON=bit 0, AES=bit 1, PMULL=bit 2, SHA2=bit 4, CRC32=bit 5, ATOMICS=bit 6,
FP=bit 7, ASIMD=bit 8 (constants from src/cpu/flags.rs lines 48-62). -/
def armBits (p : ArmProbe) : Nat :=
  let f : Nat := 0
  let f := if p.neon then f ||| 1 <<< 0 else f
  let f := if p.aes then f ||| 1 <<< 1 else f
  let f := if p.pmull then f ||| 1 <<< 2 else f
  let f := if p.sha2 then f ||| 1 <<< 4 else f
  let f := if p.crc then f ||| 1 <<< 5 else f
  let f := if p.lse then f ||| 1 <<< 6 else f
  let f := if p.fp then f ||| 1 <<< 7 else f
  let f := if p.asimd then f ||| 1 <<< 8 else f
  f

/-- aarch64 `detect_features` (src/cpu/flags.rs lines 136-169): always Ok. -/
def detect_features_arm (p : ArmProbe) : Except FeatureError Nat :=
  Except.ok (armBits p)

/-- `CpuError` from src/cpu/info.rs. -/
inductive CpuError
  | VendorDetection (s : String)
  | InfoRead (s : String)
  | UnsupportedArch
deriving DecidableEq, Repr

/-- Display messages of `CpuError` (thiserror attributes,
src/cpu/info.rs lines 11-19). -/
def CpuError.message : CpuError → String
  | CpuError.VendorDetection s => "Failed to detect CPU vendor: " ++ s
  | CpuError.InfoRead s => "Failed to read CPU information: " ++ s
  | CpuError.UnsupportedArch => "Unsupported CPU architecture"

/-- `detect_arm_features` from src/arch/aarch64.rs lines 32-65: same bit
accumulation, CpuError-typed result, always Ok. -/
def detect_arm_features (p : ArmProbe) : Except CpuError Nat :=
  Except.ok (armBits p)

/-- Architecture-tagged feature bit-set held by a CpuInfo snapshot
(X86Features on the x86 build, ArmFeatures on the ARM64 build). -/
inductive Features
  | x86 (bits : Nat)
  | arm (bits : Nat)
deriving DecidableEq, Repr

/-- The `CpuInfo` snapshot as constructed by the detect_cpu aggregators
(src/arch/x86_64.rs lines 87-96 and src/arch/aarch64.rs lines 11-28):
vendor, brand string, version, core counts, frequency, simplified 4-slot
cache-size array, and the architecture feature bit-set. -/
structure CpuInfo where
  vendor : Vendor
  brand_string : String
  version : Version
  physical_cores : Nat
  logical_cores : Nat
  frequency : Frequency
  cache_sizes : Quad (Option Nat)
  features : Features
deriving DecidableEq, Repr

/-- Simplified-slot index of a cache, from the match in
src/arch/x86_64.rs lines 64-75: keyed on (level, cache_type), not on the
slot the cache occupies; other levels are dropped. -/
def sizeIndex (ci : CacheInfo) : Option Nat :=
  match ci.level, ci.cache_type with
  | 1, CacheType.Instruction => some 0
  | 1, CacheType.Data => some 1
  | 2, _ => some 2
  | 3, _ => some 3
  | _, _ => none

/-- One step of the cache_sizes mapping loop (src/arch/x86_64.rs
lines 62-84): a populated slot stores its size at its (level,type)-derived
index when that index exists and is in bounds. -/
def sizeStep (acc : Quad (Option Nat)) (slot : Option CacheInfo) : Quad (Option Nat) :=
  match slot with
  | none => acc
  | some ci =>
    match sizeIndex ci with
    | some idx => if idx < 4 then acc.set idx (some ci.size_kb) else acc
    | none => acc

/-- The cache_sizes derivation of the x86 detect_cpu
(src/arch/x86_64.rs lines 58-85): iterate the four topology slots in order,
starting from an all-None array. -/
def mapCacheSizes (t : CacheTopology) : Quad (Option Nat) :=
  List.foldl sizeStep ⟨none, none, none, none⟩ t.toList

/-- Vendor determination of the x86 detect_cpu (src/arch/x86_64.rs
lines 20-24); the wildcard arm produces the Unknown variant (modelled as
carrying the vendor string, the payload `Vendor::Unknown` requires). -/
def vendorFromString (s : String) : Vendor :=
  if s = "GenuineIntel" then Vendor.Intel
  else if s = "AuthenticAMD" then Vendor.AMD
  else Vendor.Unknown s

/-- Core of the x86 detect_cpu (src/arch/x86_64.rs lines 10-97), as a
function of the results of its two CpuidWrapper calls, the feature probes
and the num_cpus core counts.  A basic-info error aborts with InfoRead; a
cache-topology error leaves all cache_sizes slots None. -/
def detect_cpu_x86_core (basicRes : Except CpuidError BasicInfo)
    (topoRes : Except CpuidError CacheTopology)
    (p : X86Probe) (physical logical : Nat) : Except CpuError CpuInfo :=
  match basicRes with
  | Except.error e =>
    Except.error (CpuError.InfoRead ("Failed to get basic CPU info: " ++ e.message))
  | Except.ok basic =>
    match detect_features_x86 p with
    | Except.error e =>
      Except.error (CpuError.InfoRead ("Failed to detect CPU features: " ++ e.message))
    | Except.ok feats =>
      let cache_sizes :=
        match topoRes with
        | Except.ok topo => mapCacheSizes topo
        | Except.error _ => (⟨none, none, none, none⟩ : Quad (Option Nat))
      Except.ok
        { vendor := vendorFromString basic.vendor_string
          brand_string := basic.brand_string
          version := foldVersion basic
          physical_cores := physical
          logical_cores := logical
          frequency := ⟨none, none, none⟩
          cache_sizes := cache_sizes
          features := Features.x86 feats }

/-- x86 detect_cpu applied to a concrete backend: the two CpuidWrapper calls
are evaluated on the raw answers. -/
def detect_cpu_x86 (c : RawCpuid) (p : X86Probe) (physical logical : Nat) :
    Except CpuError CpuInfo :=
  detect_cpu_x86_core (get_basic_info c) (get_cache_topology c) p physical logical

/-- ARM64 detect_cpu (src/arch/aarch64.rs lines 9-29). -/
def detect_cpu_arm (p : ArmProbe) (physical logical : Nat) : Except CpuError CpuInfo :=
  match detect_arm_features p with
  | Except.error e => Except.error (CpuError.InfoRead e.message)
  | Except.ok feats =>
    Except.ok
      { vendor := Vendor.ARM
        brand_string := "ARM Processor"
        version := ⟨0, 0, 0⟩
        physical_cores := physical
        logical_cores := logical
        frequency := ⟨none, none, none⟩
        cache_sizes := ⟨none, none, none, none⟩
        features := Features.arm feats }

/-- Reading any slot of an all-empty quad gives none. -/
lemma quad_none_get {α : Type} (k : Nat) :
    (Quad.get (⟨none, none, none, none⟩ : Quad (Option α)) k) = none := by
  rcases k with _ | _ | _ | _ | k <;> rfl

/-- Get after set on a quad of options, for in-range indices. -/
lemma Quad.get_set {α : Type} (t : Quad (Option α)) (j k : Nat) (v : Option α)
    (hj : j < 4) (hk : k < 4) :
    (t.set j v).get k = if j = k then v else t.get k := by
  interval_cases j <;> interval_cases k <;> simp [Quad.get, Quad.set]

/-- The empty topology has no populated slot. -/
lemma anyPopulated_empty : anyPopulated emptyTopology = false := rfl

/-- Writing a populated entry into an in-range slot populates the topology. -/
lemma anyPopulated_set (t : CacheTopology) (j : Nat) (e : CacheInfo) (hj : j < 4) :
    anyPopulated (t.set j (some e)) = true := by
  interval_cases j <;> simp [anyPopulated, Quad.set]

/-- The deterministic slot target is always in range when the running index is. -/
lemma detTarget_lt (d : RawCacheParam) (idx : Nat) (h : idx < 4) : detTarget d idx < 4 := by
  unfold detTarget
  split <;> omega

/-- Once the cache_found flag is set, the deterministic loop keeps it set. -/
lemma detLoop_found_true (ps : List RawCacheParam) : ∀ t idx, (detLoop ps t idx true).2 = true := by
  induction ps with
  | nil => intro t idx; rfl
  | cons d rest ih =>
    intro t idx
    by_cases h : 4 ≤ idx <;> simp [detLoop, h, ih]

/-- A deterministic pass that reports no find leaves the topology untouched. -/
lemma detLoop_not_found (ps : List RawCacheParam) :
    ∀ t idx, (detLoop ps t idx false).2 = false → (detLoop ps t idx false).1 = t := by
  induction ps with
  | nil => intro t idx _; rfl
  | cons d rest ih =>
    intro t idx h
    by_cases hi : 4 ≤ idx
    · simp [detLoop, hi]
    · exfalso
      simp only [detLoop, if_neg hi] at h
      rw [detLoop_found_true] at h
      exact absurd h (by simp)

/-- The deterministic loop preserves having a populated slot. -/
lemma detLoop_preserves_populated (ps : List RawCacheParam) :
    ∀ t idx f, anyPopulated t = true → anyPopulated (detLoop ps t idx f).1 = true := by
  induction ps with
  | nil => intro t idx f h; exact h
  | cons d rest ih =>
    intro t idx f h
    by_cases hi : 4 ≤ idx
    · simpa [detLoop, hi] using h
    · simp only [detLoop, if_neg hi]
      exact ih _ _ _ (anyPopulated_set _ _ _ (detTarget_lt d idx (by omega)))

/-- A deterministic pass that reports a find has populated at least one slot. -/
lemma detLoop_found_populated (ps : List RawCacheParam) :
    ∀ t idx, (detLoop ps t idx false).2 = true → anyPopulated (detLoop ps t idx false).1 = true := by
  cases ps with
  | nil => intro t idx h; exact absurd h (by simp [detLoop])
  | cons d rest =>
    intro t idx h
    by_cases hi : 4 ≤ idx
    · exact absurd h (by simp [detLoop, hi])
    · simp only [detLoop, if_neg hi] at h ⊢
      exact detLoop_preserves_populated rest _ _ _
        (anyPopulated_set _ _ _ (detTarget_lt d idx (by omega)))

/-- An AMD fallback that reports no find leaves the topology untouched. -/
lemma amdFallback_not_found (e : ExtInfoRaw) (t : CacheTopology)
    (h : (amdFallback e t).2 = false) : (amdFallback e t).1 = t := by
  rcases e with ⟨l1, l2, l3⟩
  cases l1 <;> cases l2 <;> cases l3 <;>
    simp only [amdFallback] at h ⊢ <;>
    split_ifs at h ⊢ <;> simp_all

/-- An AMD fallback that reports a find has populated at least one slot. -/
lemma amdFallback_found_populated (e : ExtInfoRaw) (t : CacheTopology)
    (h : (amdFallback e t).2 = true) : anyPopulated (amdFallback e t).1 = true := by
  rcases e with ⟨l1, l2, l3⟩
  cases l1 <;> cases l2 <;> cases l3 <;>
    simp only [amdFallback] at h ⊢ <;>
    first
    | simp_all
    | (split_ifs at h ⊢ <;> simp_all [anyPopulated, Quad.set])

/-- C1: get_cache_topology tries the three discovery strategies in the fixed
order deterministic enumeration → AMD extended fallback → legacy/default
fallback, stopping at the first whose output (computed from an empty
topology) has at least one populated slot; the returned topology is exactly
one strategy's output from an empty topology, so no data is ever merged
across strategies, and a strategy without a populated slot never ends the
chain early. -/
theorem get_cache_topology_strategy_chain (c : RawCpuid) :
    get_cache_topology c =
      Except.ok (if anyPopulated (strat1 c) then strat1 c
        else if anyPopulated (strat2 c) then strat2 c
        else strat3 c) := by
  have tail :
      (if (match c.extended_info with
            | some e => amdFallback e emptyTopology
            | none => ((emptyTopology : CacheTopology), false)).2 then
        Except.ok (ε := CpuidError) (match c.extended_info with
            | some e => amdFallback e emptyTopology
            | none => ((emptyTopology : CacheTopology), false)).1
      else if c.legacy_cache_info then
        Except.ok (match c.extended_info with
            | some e => amdFallback e emptyTopology
            | none => ((emptyTopology : CacheTopology), false)).1
      else
        Except.ok (defaultsFallback c (match c.extended_info with
            | some e => amdFallback e emptyTopology
            | none => ((emptyTopology : CacheTopology), false)).1)) =
      Except.ok (if anyPopulated (strat2 c) then strat2 c else strat3 c) := by
    unfold strat2 strat3
    cases hext : c.extended_info with
    | none =>
      by_cases hleg : c.legacy_cache_info <;> simp [hleg, anyPopulated_empty]
    | some e =>
      cases h2 : (amdFallback e emptyTopology).2 with
      | false =>
        have he := amdFallback_not_found e emptyTopology h2
        by_cases hleg : c.legacy_cache_info <;>
          simp [h2, he, hleg, anyPopulated_empty]
      | true =>
        have hp := amdFallback_found_populated e emptyTopology h2
        simp [h2, hp]
  unfold get_cache_topology strat1
  cases hcp : c.cache_parameters with
  | none =>
    simp only [anyPopulated_empty, Bool.false_eq_true, if_false]
    exact tail
  | some ps =>
    cases h1 : (detLoop ps emptyTopology 0 false).2 with
    | true =>
      have hp := detLoop_found_populated ps emptyTopology 0 h1
      simp [h1, hp]
    | false =>
      have he := detLoop_not_found ps emptyTopology 0 h1
      simp only [h1, he, anyPopulated_empty, Bool.false_eq_true, if_false]
      exact tail

/-- The (slot, entry) writes a deterministic pass performs, in order, with
their running descriptor index starting at `i` (the pass stops at index 4). -/
def writesFrom : Nat → List RawCacheParam → List (Nat × CacheInfo)
  | _, [] => []
  | i, d :: rest =>
    if 4 ≤ i then [] else (detTarget d i, detEntry d) :: writesFrom (i + 1) rest

/-- Value left in slot `k` by a sequence of (slot, value) writes applied in
list order: the last write to `k` wins, none if `k` is never written. -/
def lastAssign {α : Type} (k : Nat) : List (Nat × α) → Option α
  | [] => none
  | p :: rest =>
    match lastAssign k rest with
    | some v => some v
    | none => if p.1 = k then some p.2 else none

/-- Per-slot characterization of the deterministic loop: the final content
of slot `k` is the last write targeted at `k`, falling back to the incoming
topology's slot. -/
lemma detLoop_fst_get (ps : List RawCacheParam) :
    ∀ t idx f k, k < 4 →
      ((detLoop ps t idx f).1.get k) =
        (match lastAssign k (writesFrom idx ps) with
         | some e => some e
         | none => t.get k) := by
  induction ps with
  | nil => intro t idx f k _; rfl
  | cons d rest ih =>
    intro t idx f k hk
    by_cases hi : 4 ≤ idx
    · simp [detLoop, writesFrom, hi, lastAssign]
    · simp only [detLoop, writesFrom, if_neg hi]
      rw [ih _ (idx + 1) true k hk]
      cases hla : lastAssign k (writesFrom (idx + 1) rest) with
      | some v => simp [lastAssign, hla]
      | none =>
        simp only [lastAssign, hla]
        rw [Quad.get_set _ _ _ _ (detTarget_lt d idx (by omega)) hk]
        by_cases ht : detTarget d idx = k <;> simp [ht]

/-- Helper descriptor for the C2 counterexample: an L1 data cache
(8-way, 1 partition, 64-byte lines, 64 sets). -/
def descL1d : RawCacheParam := ⟨1, RawCacheType.Data, 8, 1, 64, 64, 1⟩

/-- Helper descriptor for the C2 counterexample: a level-4 unified cache,
outside the canonical (level, type) mapping. -/
def descL4 : RawCacheParam := ⟨4, RawCacheType.Unified, 16, 1, 64, 1024, 2⟩

/-- Helper backend for the C2 counterexample: deterministic enumeration
reports the L1 data descriptor followed by the level-4 descriptor. -/
def rawC2 : RawCpuid := ⟨none, none, none, none, some [descL1d, descL4], none, false⟩

/-- C2 counterexample: in one deterministic pass over [L1-Data, level-4],
the L1-Data descriptor populates slot 1, and then the level-4 descriptor is
assigned slot 1 as well (its running index), overwriting the slot populated
earlier in the same pass — refuting both the free-slot assignment and the
no-overwrite parts of the claim. -/
theorem det_pass_overwrites_slot :
    (detLoop [descL1d] emptyTopology 0 false).1.get 1 = some (detEntry descL1d)
    ∧ (match get_cache_topology rawC2 with
       | Except.ok t => t.get 1
       | Except.error _ => none) = some (detEntry descL4)
    ∧ detEntry descL4 ≠ detEntry descL1d
    ∧ (detEntry descL4).level = 4 := by
  refine ⟨rfl, rfl, ?_, rfl⟩
  decide

/-- C2 (amended): during one deterministic pass, each descriptor with a
canonical (level, type) goes to its fixed slot (L1-Instruction→0,
L1-Data→1, level-2→2, level-3→3); every other descriptor is assigned the
slot equal to its running index in the pass, whether or not that slot is
free, so a later write can overwrite an earlier one: slot `k` of the result
holds the last write targeted at `k`. -/
theorem det_pass_slot_assignment :
    (∀ ps k, k < 4 →
      (detLoop ps emptyTopology 0 false).1.get k = lastAssign k (writesFrom 0 ps))
    ∧ (∀ d idx, d.level = 1 → mapCacheType d.ctype = CacheType.Instruction →
        detTarget d idx = 0)
    ∧ (∀ d idx, d.level = 1 → mapCacheType d.ctype = CacheType.Data →
        detTarget d idx = 1)
    ∧ (∀ d idx, d.level = 2 → detTarget d idx = 2)
    ∧ (∀ d idx, d.level = 3 → detTarget d idx = 3)
    ∧ (∀ d idx, d.level ≠ 1 → d.level ≠ 2 → d.level ≠ 3 → detTarget d idx = idx) := by
  refine ⟨?_, ?_, ?_, ?_, ?_, ?_⟩
  · intro ps k hk
    rw [detLoop_fst_get ps emptyTopology 0 false k hk]
    cases hla : lastAssign k (writesFrom 0 ps) <;> simp [quad_none_get, emptyTopology]
  · intro d idx h1 h2
    unfold detTarget
    rw [h1, h2]
  · intro d idx h1 h2
    unfold detTarget
    rw [h1, h2]
  · intro d idx h1
    unfold detTarget
    rw [h1]
  · intro d idx h1
    unfold detTarget
    rw [h1]
  · intro d idx h1 h2 h3
    unfold detTarget
    rcases hl : d.level with _ | _ | _ | _ | n
    · cases mapCacheType d.ctype <;> rfl
    · exact absurd hl h1
    · exact absurd hl h2
    · exact absurd hl h3
    · cases mapCacheType d.ctype <;> rfl

/-- Witness for the amended C2 theorem at the counterexample input. -/
theorem det_pass_slot_assignment_witness :
    (1 : Nat) < 4
    ∧ (detLoop [descL1d, descL4] emptyTopology 0 false).1.get 1 =
        lastAssign 1 (writesFrom 0 [descL1d, descL4]) :=
  ⟨by decide, det_pass_slot_assignment.1 [descL1d, descL4] 1 (by decide)⟩

/-- C3: for nibble-sized (4-bit) base and extended fields, the x86
detect_cpu folds family as (extended_family << 4) + family exactly when the
base family is 0xF, and folds model as (extended_model << 4) + model
exactly when the base family is 0xF or 0x6; otherwise the base values are
kept. -/
theorem version_folding (fam md ef em : Nat)
    (_h1 : fam < 16) (h2 : md < 16) (h3 : ef < 16) (h4 : em < 16) :
    foldFamily fam ef = (if fam = 0xF then ef * 16 + fam else fam)
    ∧ foldModel fam md em = (if fam = 0xF ∨ fam = 0x6 then em * 16 + md else md) := by
  constructor
  · unfold foldFamily
    split_ifs <;> omega
  · unfold foldModel
    split_ifs <;> omega

/-- Witness for the C3 theorem: base family 0xF with extended family 0x2
folds to 0x2F, and base family 0x6 with base model 0x5 and extended model
0x3 folds the model to 0x35. -/
theorem version_folding_witness :
    foldFamily 0xF 0x2 = 0x2F ∧ foldModel 0x6 0x5 0x3 = 0x35 :=
  ⟨((version_folding 0xF 0x5 0x2 0x3 (by decide) (by decide) (by decide)
      (by decide)).1).trans (by decide),
   ((version_folding 0x6 0x5 0x2 0x3 (by decide) (by decide) (by decide)
      (by decide)).2).trans (by decide)⟩

/-- Brand string of a basic-info result, none on error. -/
def basicBrand (r : Except CpuidError BasicInfo) : Option String :=
  match r with
  | Except.ok bi => some bi.brand_string
  | Except.error _ => none

/-- Extended-features word of a basic-info result, none on error. -/
def basicExtFeatures (r : Except CpuidError BasicInfo) : Option Nat :=
  match r with
  | Except.ok bi => some bi.extended_features
  | Except.error _ => none

/-- C4: with vendor information readable, get_basic_info fails with
UnsupportedLeaf(1) exactly when the feature-info leaf is absent; when the
feature leaf is present, a missing brand string yields the literal
"Unknown" (not an error) and a missing extended-feature leaf yields
extended_features = 0 (not an error). -/
theorem basic_info_error_handling (c : RawCpuid) (v : String)
    (hv : c.vendor_info = some v) :
    (get_basic_info c = Except.error (CpuidError.UnsupportedLeaf 1) ↔
      c.feature_info = none)
    ∧ (c.feature_info ≠ none → c.brand = none →
        basicBrand (get_basic_info c) = some "Unknown")
    ∧ (c.feature_info ≠ none → c.extended_feature_info = none →
        basicExtFeatures (get_basic_info c) = some 0) := by
  unfold get_basic_info basicBrand basicExtFeatures
  rw [hv]
  cases hf : c.feature_info <;>
    cases hb : c.brand <;>
      cases he : c.extended_feature_info <;>
        simp [String.trim]

/-- Helper backend for the C4 witness: vendor readable, feature leaf absent. -/
def rawC4a : RawCpuid := ⟨some "GenuineIntel", none, none, none, none, none, false⟩

/-- Helper backend for the C4 witness: vendor readable, feature leaf present,
brand string and extended-feature leaf absent. -/
def rawC4b : RawCpuid :=
  ⟨some "GenuineIntel", none, some ⟨6, 10, 2, 0, 3, 0, 5, 7⟩, none, none, none, false⟩

/-- Witness for the C4 theorem: a concrete backend without the feature leaf
fails with UnsupportedLeaf(1), and a concrete backend without brand string
or extended-feature leaf yields brand "Unknown" and extended_features 0. -/
theorem basic_info_error_handling_witness :
    rawC4a.vendor_info = some "GenuineIntel"
    ∧ get_basic_info rawC4a = Except.error (CpuidError.UnsupportedLeaf 1)
    ∧ basicBrand (get_basic_info rawC4b) = some "Unknown"
    ∧ basicExtFeatures (get_basic_info rawC4b) = some 0 :=
  ⟨rfl,
   (basic_info_error_handling rawC4a "GenuineIntel" rfl).1.mpr rfl,
   (basic_info_error_handling rawC4b "GenuineIntel" rfl).2.1 (by decide) rfl,
   (basic_info_error_handling rawC4b "GenuineIntel" rfl).2.2 (by decide) rfl⟩

/-- C5: the `Vendor` enum declared in src/cpu/info.rs has exactly the four
constructor shapes AMD, Intel, ARM, Unknown(String) — its tag function is
surjective onto a four-element tag type — while the spec's claimed variant
set {Intel, AMD, ARM, Apple, Unknown} has five tags, so no tag-preserving
correspondence exists: the Apple variant the spec (and the repository's own
printer and tests) expect is missing from the declared enum. -/
theorem vendor_enum_missing_apple :
    Function.Surjective Vendor.tag
    ∧ Fintype.card VendorTag = 4
    ∧ Fintype.card VendorSpecTag = 5
    ∧ ¬ Nonempty (VendorTag ≃ VendorSpecTag) := by
  refine ⟨?_, by decide, by decide, ?_⟩
  · intro t
    cases t with
    | AMD => exact ⟨Vendor.AMD, rfl⟩
    | Intel => exact ⟨Vendor.Intel, rfl⟩
    | ARM => exact ⟨Vendor.ARM, rfl⟩
    | Unknown => exact ⟨Vendor.Unknown "", rfl⟩
  · rintro ⟨e⟩
    have h := Fintype.card_congr e
    simp only [show Fintype.card VendorTag = 4 from by decide,
      show Fintype.card VendorSpecTag = 5 from by decide] at h
    omega

/-- Helper backend for the C6 round trip: one deterministic L1 data
descriptor with associativity 8, one partition, 64-byte lines, 64 sets. -/
def rawC6 : RawCpuid := ⟨none, none, none, none, some [descL1d], none, false⟩

/-- C6: the deterministic-enumeration strategy records each descriptor's
size in KB as associativity × physical_line_partitions ×
coherency_line_size × sets / 1024 (exact integer arithmetic), and the
spec's round trip holds: 8 × 1 × 64 × 64 / 1024 = 32, end to end through
get_cache_topology. -/
theorem cache_size_formula :
    (∀ d : RawCacheParam,
      (detEntry d).size_kb =
        d.associativity * d.physical_line_partitions * d.coherency_line_size * d.sets / 1024)
    ∧ sizeKb 8 1 64 64 = 32
    ∧ (match get_cache_topology rawC6 with
       | Except.ok t => t.get 1
       | Except.error _ => none) = some (detEntry descL1d)
    ∧ (detEntry descL1d).size_kb = 32 := by
  refine ⟨fun d => rfl, by decide, rfl, by decide⟩

/-- C7: the ARM64 detect_cpu always succeeds with vendor ARM, the fixed
non-empty brand string "ARM Processor", an all-zero version, no frequency
values, and all four cache_sizes slots absent. -/
theorem arm_detect_fixed_fields (p : ArmProbe) (physical logical : Nat) :
    detect_cpu_arm p physical logical =
      Except.ok
        { vendor := Vendor.ARM
          brand_string := "ARM Processor"
          version := ⟨0, 0, 0⟩
          physical_cores := physical
          logical_cores := logical
          frequency := ⟨none, none, none⟩
          cache_sizes := ⟨none, none, none, none⟩
          features := Features.arm (armBits p) }
    ∧ "ARM Processor" ≠ "" := by
  exact ⟨rfl, by decide⟩

/-- The (index, size) writes the cache_sizes mapping performs, one per
populated topology slot whose (level, type) has a canonical index, in slot
order. -/
def sizeWrites (t : CacheTopology) : List (Nat × Nat) :=
  t.toList.filterMap
    (fun s => s.bind (fun ci => (sizeIndex ci).map (fun j => (j, ci.size_kb))))

/-- A canonical size index is always in range. -/
lemma sizeIndex_lt (ci : CacheInfo) (j : Nat) (h : sizeIndex ci = some j) : j < 4 := by
  unfold sizeIndex at h
  split at h <;> simp_all <;> omega

/-- Per-slot characterization of the cache_sizes fold over any slot list. -/
lemma foldl_sizeStep_get (l : List (Option CacheInfo)) :
    ∀ acc k, k < 4 →
      (List.foldl sizeStep acc l).get k =
        (match lastAssign k (l.filterMap
            (fun s => s.bind (fun ci => (sizeIndex ci).map (fun j => (j, ci.size_kb))))) with
         | some v => some v
         | none => acc.get k) := by
  induction l with
  | nil => intro acc k _; rfl
  | cons s rest ih =>
    intro acc k hk
    cases s with
    | none => simp [List.foldl, sizeStep, ih _ k hk]
    | some ci =>
      cases hsi : sizeIndex ci with
      | none => simp [List.foldl, sizeStep, hsi, ih _ k hk]
      | some j =>
        have hj := sizeIndex_lt ci j hsi
        simp only [List.foldl, sizeStep, hsi, if_pos hj, List.filterMap_cons,
          Option.some_bind, Option.map_some]
        rw [ih _ k hk]
        cases hla : lastAssign k (rest.filterMap
            (fun s => s.bind (fun ci => (sizeIndex ci).map (fun j => (j, ci.size_kb))))) with
        | some v => simp [lastAssign, hla]
        | none =>
          simp only [lastAssign, hla]
          rw [Quad.get_set _ _ _ _ hj hk]
          by_cases ht : j = k <;> simp [ht]

/-- Helper topology for the C8 counterexample: slot 0 is populated, but with
a level-4 unified cache whose (level, type) has no canonical index. -/
def oddTopology : CacheTopology :=
  ⟨some ⟨4, CacheType.Unified, 1024, 64, 8, 0, 0⟩, none, none, none⟩

/-- C8 counterexample: topology slot 0 is populated (with a level-4 cache of
size 1024 KB), yet the derived cache_sizes leaves index 0 absent — the
mapping is keyed on (level, type), not on slot position, refuting the
claim's slot-index correspondence. -/
theorem cache_sizes_not_slotwise :
    (oddTopology.get 0).isSome = true
    ∧ (mapCacheSizes oddTopology).get 0 = none := by
  decide

/-- C8 (amended): for every resolved topology, cache_sizes index k holds the
size_kb of the last populated slot (in slot order) whose (level, type) maps
canonically to k (L1-Instruction→0, L1-Data→1, level-2→2, level-3→3);
caches at other levels are dropped and unmatched indices stay None; line
size, associativity, sets and shared-by are discarded. -/
theorem cache_sizes_by_level_type (t : CacheTopology) (k : Nat) (hk : k < 4) :
    (mapCacheSizes t).get k = lastAssign k (sizeWrites t) := by
  unfold mapCacheSizes sizeWrites
  rw [foldl_sizeStep_get t.toList _ k hk]
  cases hla : lastAssign k (t.toList.filterMap
      (fun s => s.bind (fun ci => (sizeIndex ci).map (fun j => (j, ci.size_kb))))) <;>
    simp [quad_none_get]

/-- Witness for the amended C8 theorem at the counterexample topology. -/
theorem cache_sizes_by_level_type_witness :
    (0 : Nat) < 4
    ∧ (mapCacheSizes oddTopology).get 0 = lastAssign 0 (sizeWrites oddTopology) :=
  ⟨by decide, cache_sizes_by_level_type oddTopology 0 (by decide)⟩

/-- True iff a result is Ok. -/
def exceptIsOk {ε α : Type} : Except ε α → Bool
  | Except.ok _ => true
  | Except.error _ => false

/-- cache_sizes of a detection result, none on error. -/
def resultCacheSizes (r : Except CpuError CpuInfo) : Option (Quad (Option Nat)) :=
  match r with
  | Except.ok ci => some ci.cache_sizes
  | Except.error _ => none

/-- C9: in the x86 detect_cpu, a get_basic_info failure aborts the whole
call with the originating error wrapped in InfoRead, while a
get_cache_topology failure never aborts: detection still returns Ok and
every cache_sizes slot is left None. -/
theorem x86_detect_error_policy (basicRes : Except CpuidError BasicInfo)
    (topoRes : Except CpuidError CacheTopology) (p : X86Probe)
    (physical logical : Nat) :
    (∀ e, basicRes = Except.error e →
      detect_cpu_x86_core basicRes topoRes p physical logical =
        Except.error (CpuError.InfoRead ("Failed to get basic CPU info: " ++ e.message)))
    ∧ (∀ bi e, basicRes = Except.ok bi → topoRes = Except.error e →
        exceptIsOk (detect_cpu_x86_core basicRes topoRes p physical logical) = true
        ∧ resultCacheSizes (detect_cpu_x86_core basicRes topoRes p physical logical) =
            some ⟨none, none, none, none⟩) := by
  constructor
  · intro e he
    rw [he]
    rfl
  · intro bi e hb ht
    rw [hb, ht]
    exact ⟨rfl, rfl⟩

/-- Helper basic info for the C9 witness. -/
def basicC9 : BasicInfo := ⟨"GenuineIntel", "Some CPU", 6, 10, 2, 0, 3, 0, 5, 7⟩

/-- Witness for the C9 theorem: a concrete basic-info failure aborts with
InfoRead, and a concrete cache-topology failure still yields Ok with all
cache_sizes slots None. -/
theorem x86_detect_error_policy_witness :
    detect_cpu_x86_core (Except.error (CpuidError.UnsupportedLeaf 1))
        (Except.ok emptyTopology) ⟨false, false, false, false, false, false, false,
          false, false, false, false, false, false, false, false, false, false,
          false, false⟩ 4 8 =
      Except.error (CpuError.InfoRead
        ("Failed to get basic CPU info: " ++ (CpuidError.UnsupportedLeaf 1).message))
    ∧ exceptIsOk (detect_cpu_x86_core (Except.ok basicC9)
        (Except.error CpuidError.UnsupportedArchitecture) ⟨false, false, false, false,
          false, false, false, false, false, false, false, false, false, false,
          false, false, false, false, false⟩ 4 8) = true
    ∧ resultCacheSizes (detect_cpu_x86_core (Except.ok basicC9)
        (Except.error CpuidError.UnsupportedArchitecture) ⟨false, false, false, false,
          false, false, false, false, false, false, false, false, false, false,
          false, false, false, false, false⟩ 4 8) = some ⟨none, none, none, none⟩ :=
  ⟨(x86_detect_error_policy (Except.error (CpuidError.UnsupportedLeaf 1))
      (Except.ok emptyTopology) _ 4 8).1 (CpuidError.UnsupportedLeaf 1) rfl,
   ((x86_detect_error_policy (Except.ok basicC9)
      (Except.error CpuidError.UnsupportedArchitecture) _ 4 8).2 basicC9
      CpuidError.UnsupportedArchitecture rfl rfl).1,
   ((x86_detect_error_policy (Except.ok basicC9)
      (Except.error CpuidError.UnsupportedArchitecture) _ 4 8).2 basicC9
      CpuidError.UnsupportedArchitecture rfl rfl).2⟩

/-- C10: feature detection never fails on a supported architecture: the x86
and aarch64 detect_features and the aarch64 detect_arm_features always
return Ok, so the feature-error propagation branches of the two detect_cpu
aggregators can never fire (x86 detection with readable basic info always
returns Ok, and ARM detection always returns Ok). -/
theorem detect_features_total :
    (∀ p : X86Probe, ∃ f, detect_features_x86 p = Except.ok f)
    ∧ (∀ p : ArmProbe, ∃ f, detect_features_arm p = Except.ok f)
    ∧ (∀ p : ArmProbe, ∃ f, detect_arm_features p = Except.ok f)
    ∧ (∀ (bi : BasicInfo) (topoRes : Except CpuidError CacheTopology)
        (p : X86Probe) (physical logical : Nat),
        exceptIsOk (detect_cpu_x86_core (Except.ok bi) topoRes p physical logical) = true)
    ∧ (∀ (p : ArmProbe) (physical logical : Nat),
        exceptIsOk (detect_cpu_arm p physical logical) = true) := by
  refine ⟨fun p => ⟨_, rfl⟩, fun p => ⟨_, rfl⟩, fun p => ⟨_, rfl⟩, ?_, fun p phys lg => rfl⟩
  intro bi topoRes p physical logical
  cases topoRes <;> rfl

end Cpufetch
